import Mathlib

/-!
Shallow embedding of the service-ticket SLA derivation-and-aggregation engine
(`TRATAR_ANALISES_UNIFICADO.py`).

Timestamps are modelled as integers counting seconds since the Unix epoch
(1970-01-01, a Thursday); an absent timestamp (`NaT`) is `none`.  Pandas
`(a - b).dt.days` floors the difference toward minus infinity, which is
`Int.fdiv` of the second difference by 86400.  `pd.Series.normalize()` floors a
timestamp to midnight.  Elementwise comparisons against `NaT` are `False`,
mirrored by the `opt*` comparison helpers.  Numeric columns that can hold `NaN`
(a day difference with a missing operand) are modelled as `Option Int`.
-/

namespace STD

def secondsPerDay : Int := 86400

/-- Calendar day index of a timestamp, as used by `.date()` / `.dt.days`. -/
def dateOf (t : Int) : Int := Int.fdiv t secondsPerDay

/-- `pd.to_datetime("today").normalize()`: midnight of the day of `t`. -/
def normalizeDay (t : Int) : Int := secondsPerDay * dateOf t

/-- Python `weekday()` (Monday = 0) of a day index; day 0 is a Thursday. -/
def weekday (d : Int) : Int := (d + 3).emod 7

/-- `DateUtils.is_business_day` on a day index: Monday through Friday. -/
def isBusinessDay (d : Int) : Bool := weekday d < 5

/-- Number of business days among the `n` consecutive day indices starting at `s`. -/
def weekdayCountFrom (s : Int) (n : Nat) : Nat :=
  ((List.range n).filter (fun i : Nat => isBusinessDay (s + (i : Int)))).length

/-- `np.busday_count(s, e)`: business days in `[s, e)`, negated when `e < s`. -/
def busdayCount (s e : Int) : Int :=
  if s ≤ e then (weekdayCountFrom s (e - s).toNat : Int)
  else -(weekdayCountFrom e (s - e).toNat : Int)

/-- `DateUtils.business_days_between`: 0 when either side is `NaT` or the two
calendar dates coincide, otherwise `max(0, np.busday_count(start, end))`. -/
def businessDaysBetween : Option Int → Option Int → Int
  | some s, some e =>
    if dateOf s = dateOf e then 0 else max 0 (busdayCount (dateOf s) (dateOf e))
  | _, _ => 0

/-- Two-digit zero padding of `f"{n:02d}"` (a sign makes the literal wider). -/
def intPad2 (n : Int) : String :=
  if 0 ≤ n ∧ n < 10 then "0" ++ toString n else toString n

/-- `DateUtils.format_time_duration`: `NaN` renders as `"00:00:00"`, otherwise
hours/minutes/seconds are carved out of the seconds value by floor division. -/
def formatTimeDuration : Option ℚ → String
  | none => "00:00:00"
  | some s =>
    intPad2 ⌊s / 3600⌋ ++ ":" ++ intPad2 ⌊(s - 3600 * (⌊s / 3600⌋ : ℚ)) / 60⌋ ++ ":" ++
      intPad2 (⌊s⌋ - 60 * ⌊s / 60⌋)

/-- Python `str.upper()` (over the characters of the string). -/
def strUpper (s : String) : String := String.mk (s.data.map Char.toUpper)

/-- Lexicographic (code-point) order on character lists, as Python compares strings. -/
def charListLe : List Char → List Char → Bool
  | [], _ => true
  | _ :: _, [] => false
  | a :: as, b :: bs =>
    if a.toNat < b.toNat then true
    else if b.toNat < a.toNat then false
    else charListLe as bs

/-- Lexicographic order on strings. -/
def strLe (a b : String) : Bool := charListLe a.data b.data

/-- One ticket row after date coercion; only the fields the derivations read. -/
structure Record where
  Numero_Chamado : Option String
  UF : String
  Data_Criacao : Option Int
  Data_Chegada : Option Int
  Data_Previsao_Conclusao : Option Int
  Data_Previsao_Chegada : Option Int
  Data_Conclusao : Option Int
  Data_de_Fechamento : Option Int
  Data_do_Primeiro_Encaminhamento : Option Int
  prazo_inicio : String
  prazo_conclusao : String
  deriving DecidableEq, Repr

/-- Elementwise `<` on timestamp columns: any comparison with `NaT` is false. -/
def optLt : Option Int → Option Int → Bool
  | some a, some b => a < b
  | _, _ => false

/-- Elementwise `≤` on timestamp columns: any comparison with `NaT` is false. -/
def optLe : Option Int → Option Int → Bool
  | some a, some b => a ≤ b
  | _, _ => false

def optGt (a b : Option Int) : Bool := optLt b a

def optGe (a b : Option Int) : Bool := optLe b a

/-- `x > k` for a possibly-`NaN` integer column entry. -/
def optGtInt : Option Int → Int → Bool
  | some a, k => a > k
  | none, _ => false

/-- `x < k` for a possibly-`NaN` integer column entry. -/
def optLtInt : Option Int → Int → Bool
  | some a, k => a < k
  | none, _ => false

/-- `x ≥ k` for a possibly-`NaN` integer column entry. -/
def optGeInt : Option Int → Int → Bool
  | some a, k => a ≥ k
  | none, _ => false

/-- `(a - b).dt.days`: whole-day (floored) difference, `NaN` when an operand is `NaT`. -/
def diasDiff : Option Int → Option Int → Option Int
  | some a, some b => some (Int.fdiv (a - b) secondsPerDay)
  | _, _ => none

/-- `(a - b).dt.total_seconds()`: `NaN` when an operand is `NaT`. -/
def secondsDiff : Option Int → Option Int → Option Int
  | some a, some b => some (a - b)
  | _, _ => none

def DIAS_FECHAMENTO_PENDENTE : Int := 30

def META_SLA : ℚ := 96

def META_LIMPEZA : ℚ := 98

end STD

namespace STD

/-- `Prazo_Inicio_Ajustado`: the literal `"NA"` (case-insensitively) becomes `"NP"`. -/
def prazo_Inicio_Ajustado (r : Record) : String :=
  if strUpper r.prazo_inicio = "NA" then "NP" else r.prazo_inicio

/-- `Prazo_Conclusao_Ajustado`: the literal `"NA"` (case-insensitively) becomes `"NP"`. -/
def prazo_Conclusao_Ajustado (r : Record) : String :=
  if strUpper r.prazo_conclusao = "NA" then "NP" else r.prazo_conclusao

/-- `Status_Chamado`. -/
def status_Chamado (r : Record) : String :=
  if r.Data_Conclusao.isNone then "Pendente" else "Concluído"

/-- `Status_Fechamento`. -/
def status_Fechamento (r : Record) : String :=
  if r.Data_Conclusao.isNone && r.Data_de_Fechamento.isNone then "Pendente" else "Concluído"

/-- `Status_Financeiro`. -/
def status_Financeiro (r : Record) : String :=
  if r.Data_de_Fechamento.isNone then "Pendente" else "Fechado"

/-- `Estoque_Atual`. -/
def estoque_Atual (r : Record) : String :=
  if r.Data_de_Fechamento.isNone && r.Data_Conclusao.isNone then "Estoque Atual" else "Não"

/-- `Data_Conclusao_Ajustada`. -/
def data_Conclusao_Ajustada (r : Record) : Option Int :=
  if r.Data_de_Fechamento.isSome && r.Data_Conclusao.isNone then r.Data_de_Fechamento
  else r.Data_Conclusao

/-- `Data_Estoque`: the reference instant when in backlog, `NaT` otherwise. -/
def data_Estoque (r : Record) (hoje : Int) : Option Int :=
  if estoque_Atual r = "Estoque Atual" then some hoje else none

/-- `Fechamento_Pendente`. -/
def fechamento_Pendente (r : Record) (hoje : Int) : String :=
  if r.Data_de_Fechamento.isNone && r.Data_Conclusao.isSome &&
      optGtInt (diasDiff (some hoje) r.Data_Conclusao) DIAS_FECHAMENTO_PENDENTE
  then "Sim" else "Não"

/-- `DURACAO_CHAMADO`: `(hoje - Data_Criacao).dt.days`. -/
def dURACAO_CHAMADO (r : Record) (hoje : Int) : Option Int :=
  diasDiff (some hoje) r.Data_Criacao

/-- `Dias_Atrasos`: `(hoje - Data_Previsao_Conclusao).dt.days + 1` when the
forecast is present, else 0.  Note the source applies no lower clamp. -/
def dias_Atrasos (r : Record) (hoje : Int) : Int :=
  match r.Data_Previsao_Conclusao with
  | some p => Int.fdiv (hoje - p) secondsPerDay + 1
  | none => 0

/-- `Dias_Chegada`: day difference when arrival is present, else 0; then every 0
(including the absent-arrival default) is remapped to 1 by the second `np.where`. -/
def dias_Chegada (r : Record) : Option Int :=
  let v := if r.Data_Chegada.isSome then diasDiff r.Data_Chegada r.Data_Criacao else some 0
  if v = some 0 then some 1 else v

/-- `Dias_Conclusao`: same shape as `Dias_Chegada`, against the completion time. -/
def dias_Conclusao (r : Record) : Option Int :=
  let v := if r.Data_Conclusao.isSome then diasDiff r.Data_Conclusao r.Data_Criacao else some 0
  if v = some 0 then some 1 else v

/-- `Dias_Fechados`: same shape as `Dias_Chegada`, against the closing time. -/
def dias_Fechados (r : Record) : Option Int :=
  let v := if r.Data_de_Fechamento.isSome then diasDiff r.Data_de_Fechamento r.Data_Criacao
    else some 0
  if v = some 0 then some 1 else v

/-- `Tempo_Atendimento` (no zero-to-one remap here). -/
def tempo_Atendimento (r : Record) : Option Int :=
  if r.Data_Conclusao.isSome then diasDiff r.Data_Conclusao r.Data_Criacao else some 0

/-- `Horas_Chegada_x_Criacao`: elapsed seconds from creation to arrival, else 0. -/
def horas_Chegada_x_Criacao (r : Record) : Option Int :=
  if r.Data_Chegada.isSome then secondsDiff r.Data_Chegada r.Data_Criacao else some 0

/-- `Faixa_Dias_em_Aberto` (`np.select`, first match wins, default `"-30 dias"`). -/
def faixa_Dias_em_Aberto (r : Record) (hoje : Int) : String :=
  if optGtInt (dURACAO_CHAMADO r hoje) 90 && r.Data_Conclusao.isSome then "+90 dias"
  else if optGtInt (dURACAO_CHAMADO r hoje) 60 && r.Data_Conclusao.isSome then "+60 dias"
  else if optGtInt (dURACAO_CHAMADO r hoje) 30 && r.Data_Conclusao.isSome then "+30 dias"
  else "-30 dias"

/-- `A_VENCER_WTM_30_DIAS`. -/
def a_VENCER_WTM_30_DIAS (r : Record) (hoje : Int) : String :=
  if optLtInt (dURACAO_CHAMADO r hoje) 30 && optGeInt (dURACAO_CHAMADO r hoje) 20
  then "À VENCER WTM +30 DIAS" else "OUTROS"

/-- Mask of the source's first `np.select` condition / `mask_concluido_atraso`. -/
def maskConcluidoAtraso (r : Record) : Bool :=
  r.Data_Conclusao.isSome && r.Data_Previsao_Conclusao.isSome &&
    optGt r.Data_Conclusao r.Data_Previsao_Conclusao

/-- Mask of the second `np.select` condition / `mask_nao_concluido_atraso`. -/
def maskNaoConcluidoAtraso (r : Record) (hoje : Int) : Bool :=
  r.Data_Conclusao.isNone && r.Data_Previsao_Conclusao.isSome &&
    optLt r.Data_Previsao_Conclusao (some hoje)

/-- Mask of the third `np.select` condition / `mask_sem_previsao`. -/
def maskSemPrevisao (r : Record) : Bool :=
  r.Data_Conclusao.isNone && r.Data_Previsao_Conclusao.isNone

/-- Mask of the fourth `np.select` condition ("Em Dia"). -/
def maskEmDia (r : Record) (hoje : Int) : Bool :=
  (r.Data_Conclusao.isSome && r.Data_Previsao_Conclusao.isSome &&
      optLe r.Data_Conclusao r.Data_Previsao_Conclusao) ||
    (r.Data_Conclusao.isNone && r.Data_Previsao_Conclusao.isSome &&
      optGe r.Data_Previsao_Conclusao (some hoje))

/-- `Status_Atraso`: `np.select` over the four masks, default `"Status Indefinido"`. -/
def status_Atraso (r : Record) (hoje : Int) : String :=
  if maskConcluidoAtraso r then "Concluído com Atraso"
  else if maskNaoConcluidoAtraso r hoje then "Atrasado"
  else if maskSemPrevisao r then "Em Aberto (Sem Previsão)"
  else if maskEmDia r hoje then "Em Dia"
  else "Status Indefinido"

/-- `Dias_Atraso`: initialised to 0, then overwritten under the three masks
(which are pairwise disjoint) with the matching day difference. -/
def dias_Atraso (r : Record) (hoje : Int) : Option Int :=
  if maskConcluidoAtraso r then diasDiff r.Data_Conclusao r.Data_Previsao_Conclusao
  else if maskNaoConcluidoAtraso r hoje then diasDiff (some hoje) r.Data_Previsao_Conclusao
  else if maskSemPrevisao r then diasDiff (some hoje) r.Data_Criacao
  else some 0

/-- `_calc_sla_inicio`. -/
def status_Prazo_Inicio (r : Record) : String :=
  match r.Data_Previsao_Chegada with
  | none => "Não Definido"
  | some prev =>
    match r.Data_do_Primeiro_Encaminhamento.orElse (fun _ => r.Data_Chegada) with
    | none => "Não Definido"
    | some inicio => if inicio ≤ prev then "NP" else "FP"

/-- `_calc_sla_conclusao`. -/
def status_Prazo_Conclusao (r : Record) : String :=
  match r.Data_Previsao_Conclusao with
  | none => "Não Definido"
  | some prev =>
    match r.Data_Conclusao with
    | none => "Pendente"
    | some c => if c ≤ prev then "NP" else "FP"

/-- `Dias_Atraso_Inicio`: arrival minus forecast-arrival when the verdict is
`"FP"`, else 0.  Note the difference is taken on `Data_Chegada` even when the
verdict was decided by `Data_do_Primeiro_Encaminhamento`. -/
def dias_Atraso_Inicio (r : Record) : Option Int :=
  if status_Prazo_Inicio r = "FP" then diasDiff r.Data_Chegada r.Data_Previsao_Chegada
  else some 0

/-- `Dias_Atraso_Conclusao`. -/
def dias_Atraso_Conclusao (r : Record) : Option Int :=
  if status_Prazo_Conclusao r = "FP" then diasDiff r.Data_Conclusao r.Data_Previsao_Conclusao
  else some 0

/-- `Duracao_Chamado_Dias_Uteis`: the lambda in `_calculate_sla_status` falls
back to a fresh `pd.Timestamp.now()` read — taken per record — when the
completion time is absent. -/
def duracao_Chamado_Dias_Uteis (r : Record) (nowRead : Int) : Int :=
  businessDaysBetween r.Data_Criacao (some (r.Data_Conclusao.getD nowRead))

/-- The derived columns of one record after
`_create_dax_equivalent_columns` → `_identify_late_and_open_calls` →
`_calculate_sla_status`. -/
structure Enriched where
  Prazo_Inicio_Ajustado : String
  Prazo_Conclusao_Ajustado : String
  Status_Chamado : String
  Status_Fechamento : String
  Status_Financeiro : String
  Estoque_Atual : String
  Data_Conclusao_Ajustada : Option Int
  Data_Estoque : Option Int
  Fechamento_Pendente : String
  DURACAO_CHAMADO : Option Int
  Dias_Atrasos : Int
  Dias_Chegada : Option Int
  Dias_Conclusao : Option Int
  Dias_Fechados : Option Int
  Tempo_Atendimento : Option Int
  Horas_Chegada_x_Criacao : Option Int
  Faixa_Dias_em_Aberto : String
  A_VENCER_WTM_30_DIAS : String
  Status_Atraso : String
  Dias_Atraso : Option Int
  Status_Prazo_Inicio : String
  Status_Prazo_Conclusao : String
  Dias_Atraso_Inicio : Option Int
  Dias_Atraso_Conclusao : Option Int
  Duracao_Chamado_Dias_Uteis : Int
  deriving DecidableEq, Repr

/-- One record through the whole derivation.  `hoje1` is the normalized clock
read taken at the top of `_create_dax_equivalent_columns`, `hoje2` the one at
the top of `_identify_late_and_open_calls`, and `nowRead` the per-record
`pd.Timestamp.now()` read inside the `Duracao_Chamado_Dias_Uteis` lambda. -/
def enrichRecord (r : Record) (hoje1 hoje2 nowRead : Int) : Enriched :=
  { Prazo_Inicio_Ajustado := prazo_Inicio_Ajustado r
    Prazo_Conclusao_Ajustado := prazo_Conclusao_Ajustado r
    Status_Chamado := status_Chamado r
    Status_Fechamento := status_Fechamento r
    Status_Financeiro := status_Financeiro r
    Estoque_Atual := estoque_Atual r
    Data_Conclusao_Ajustada := data_Conclusao_Ajustada r
    Data_Estoque := data_Estoque r hoje1
    Fechamento_Pendente := fechamento_Pendente r hoje1
    DURACAO_CHAMADO := dURACAO_CHAMADO r hoje1
    Dias_Atrasos := dias_Atrasos r hoje1
    Dias_Chegada := dias_Chegada r
    Dias_Conclusao := dias_Conclusao r
    Dias_Fechados := dias_Fechados r
    Tempo_Atendimento := tempo_Atendimento r
    Horas_Chegada_x_Criacao := horas_Chegada_x_Criacao r
    Faixa_Dias_em_Aberto := faixa_Dias_em_Aberto r hoje1
    A_VENCER_WTM_30_DIAS := a_VENCER_WTM_30_DIAS r hoje1
    Status_Atraso := status_Atraso r hoje2
    Dias_Atraso := dias_Atraso r hoje2
    Status_Prazo_Inicio := status_Prazo_Inicio r
    Status_Prazo_Conclusao := status_Prazo_Conclusao r
    Dias_Atraso_Inicio := dias_Atraso_Inicio r
    Dias_Atraso_Conclusao := dias_Atraso_Conclusao r
    Duracao_Chamado_Dias_Uteis := duracao_Chamado_Dias_Uteis r nowRead }

/-- `len(df)`. -/
def total_chamados (rows : List Record) : Nat := rows.length

/-- `df["Data_Conclusao"].notna().sum()`. -/
def total_chamados_termino (rows : List Record) : Nat :=
  rows.countP (fun r => r.Data_Conclusao.isSome)

/-- `(df["Prazo_Inicio_Ajustado"] == "NP").sum()`. -/
def total_inicio_np (rows : List Record) : Nat :=
  rows.countP (fun r => prazo_Inicio_Ajustado r == "NP")

/-- `(df["Prazo_Conclusao_Ajustado"] == "NP").sum()`. -/
def total_conclusao_np (rows : List Record) : Nat :=
  rows.countP (fun r => prazo_Conclusao_Ajustado r == "NP")

/-- The `SLA Início` KPI of `_compute_statistics` / `calculate_general_stats`. -/
def sla_inicio (rows : List Record) : ℚ :=
  if 0 < total_chamados rows then
    (total_inicio_np rows : ℚ) / (total_chamados rows : ℚ) * 100
  else 0

/-- The `SLA Término` KPI of `_compute_statistics` / `calculate_general_stats`. -/
def sla_termino (rows : List Record) : ℚ :=
  if 0 < total_chamados_termino rows then
    (total_conclusao_np rows : ℚ) / (total_chamados_termino rows : ℚ) * 100
  else 0

/-- `pd.Series.sum()` over a column with possible `NaN` entries (skipped). -/
def seriesSum (col : List (Option Int)) : Int := col.reduceOption.sum

/-- `pd.Series.mean()`: `NaN` entries are skipped; an empty column yields `NaN`. -/
def seriesMean (col : List (Option Int)) : Option ℚ :=
  let v := col.reduceOption
  if v.length = 0 then none else some ((v.sum : ℚ) / (v.length : ℚ))

/-- The `Tempo Chegada` KPI: formatted sum of `Horas_Chegada_x_Criacao`. -/
def tempo_chegada_total (rows : List Record) : String :=
  formatTimeDuration (some ((seriesSum (rows.map horas_Chegada_x_Criacao) : Int) : ℚ))

/-- The `Media Tempo Chegada` KPI: formatted mean of `Horas_Chegada_x_Criacao`. -/
def media_tempo_chegada (rows : List Record) : String :=
  formatTimeDuration (seriesMean (rows.map horas_Chegada_x_Criacao))

/-- One output row of `analyze_by_dimension`. -/
structure DimRow where
  key : String
  Total_Chamados : Nat
  NP_Inicio : Nat
  NP_Conclusao : Nat
  pct_SLA_Inicio : ℚ
  pct_SLA_Conclusao : ℚ
  deriving DecidableEq, Repr

/-- `groupby(dimension)` group keys, sorted ascending (pandas `sort=True`). -/
def groupKeys (dim : Record → String) (rows : List Record) : List String :=
  List.insertionSort (fun a b => strLe a b) (rows.map dim).dedup

/-- The aggregated row for one group key (`Total_Chamados` is a pandas
`'count'`, i.e. it counts non-null `Numero_Chamado` entries). -/
def dimRowFor (dim : Record → String) (rows : List Record) (k : String) : DimRow :=
  let g := rows.filter (fun r => dim r == k)
  { key := k
    Total_Chamados := g.countP (fun r => r.Numero_Chamado.isSome)
    NP_Inicio := g.countP (fun r => prazo_Inicio_Ajustado r == "NP")
    NP_Conclusao := g.countP (fun r => prazo_Conclusao_Ajustado r == "NP")
    pct_SLA_Inicio := 0
    pct_SLA_Conclusao := 0 }

/-- Descending comparison on group size used by `sort_values(ascending=False)`. -/
def byCountDesc (a b : DimRow) : Prop := b.Total_Chamados ≤ a.Total_Chamados

instance : DecidableRel byCountDesc := fun _ _ => Nat.decLe _ _

instance : IsTotal DimRow byCountDesc :=
  ⟨fun a b => (Nat.le_total b.Total_Chamados a.Total_Chamados).elim Or.inl Or.inr⟩

instance : IsTrans DimRow byCountDesc :=
  ⟨fun _ _ _ hab hbc => Nat.le_trans hbc hab⟩

/-- The `% SLA` columns appended after sorting and truncation. -/
def addPct (row : DimRow) : DimRow :=
  { row with
    pct_SLA_Inicio := (row.NP_Inicio : ℚ) / (row.Total_Chamados : ℚ) * 100
    pct_SLA_Conclusao := (row.NP_Conclusao : ℚ) / (row.Total_Chamados : ℚ) * 100 }

/-- `STDAnalyzer.analyze_by_dimension`: group, aggregate, sort descending by
`Total_Chamados`, truncate to `top_n`, then append the percentage columns. -/
def analyze_by_dimension (dim : Record → String) (rows : List Record) (top_n : Nat) :
    List DimRow :=
  ((List.insertionSort byCountDesc
      ((groupKeys dim rows).map (dimRowFor dim rows))).take top_n).map addPct

/-- A record with every timestamp absent and neutral string fields. -/
def emptyRec : Record :=
  { Numero_Chamado := some "0"
    UF := "A"
    Data_Criacao := none
    Data_Chegada := none
    Data_Previsao_Conclusao := none
    Data_Previsao_Chegada := none
    Data_Conclusao := none
    Data_de_Fechamento := none
    Data_do_Primeiro_Encaminhamento := none
    prazo_inicio := "X"
    prazo_conclusao := "X" }

end STD

namespace STD

/-- C9: the backlog-membership flag and the closing status always agree — a
record is classified "Estoque Atual" iff its `Status_Fechamento` is
"Pendente", both being driven by `Data_Conclusao` and `Data_de_Fechamento`
being simultaneously absent. -/
theorem c9_estoque_iff_fechamento_pendente (r : Record) :
    status_Fechamento r = "Pendente" ↔ estoque_Atual r = "Estoque Atual" := by
  rcases hc : r.Data_Conclusao with _ | c <;>
    rcases hf : r.Data_de_Fechamento with _ | f <;>
      simp [status_Fechamento, estoque_Atual, hc, hf]

/-- C10: on an empty table (or an all-`NaN` elapsed-to-arrival column) the
mean-arrival-duration KPI renders as "00:00:00", and the duration formatter
maps an absent/`NaN` seconds input to "00:00:00". -/
theorem c10_nan_mean_formats_zero :
    media_tempo_chegada [] = "00:00:00" ∧
    formatTimeDuration none = "00:00:00" ∧
    media_tempo_chegada [{ emptyRec with Data_Chegada := some 0 }] = "00:00:00" := by
  refine ⟨by decide, rfl, by decide⟩

/-- C8: the summed elapsed-to-arrival KPI is the zero-padded HH:MM:SS rendering
of the seconds total computed by floor division; a batch totalling 5400 seconds
formats as "01:30:00" (and 5399 seconds as "01:29:59" — no rounding). -/
theorem c8_format_sum_hhmmss :
    tempo_chegada_total
        [{ emptyRec with Data_Criacao := some 0, Data_Chegada := some 3600 },
         { emptyRec with Data_Criacao := some 0, Data_Chegada := some 1800 }] =
      "01:30:00" ∧
    formatTimeDuration (some (5399 : ℚ)) = "01:29:59" := by
  constructor
  · have hs :
        seriesSum (List.map horas_Chegada_x_Criacao
          [{ emptyRec with Data_Criacao := some 0, Data_Chegada := some 3600 },
           { emptyRec with Data_Criacao := some 0, Data_Chegada := some 1800 }]) = 5400 := by
      decide
    simp only [tempo_chegada_total, hs, formatTimeDuration]
    norm_num
    decide
  · simp only [formatTimeDuration]
    norm_num
    decide

/-- C5: each ratio KPI with denominator 0 evaluates to exactly 0 — the
start-SLA percentage when the table is empty, and the completion-SLA
percentage when no record has a completion time. -/
theorem c5_ratio_zero_denominator (rows : List Record) :
    (total_chamados rows = 0 → sla_inicio rows = 0) ∧
    (total_chamados_termino rows = 0 → sla_termino rows = 0) := by
  constructor
  · intro h
    simp [sla_inicio, h]
  · intro h
    simp [sla_termino, h]

/-- Witness for C5 at the empty table. -/
theorem c5_ratio_zero_denominator_witness :
    sla_inicio ([] : List Record) = 0 ∧ sla_termino ([] : List Record) = 0 :=
  ⟨(c5_ratio_zero_denominator []).1 rfl, (c5_ratio_zero_denominator []).2 rfl⟩

theorem weekdayCountFrom_mono (s : Int) {n m : Nat} (h : n ≤ m) :
    weekdayCountFrom s n ≤ weekdayCountFrom s m := by
  unfold weekdayCountFrom
  exact List.Sublist.length_le (List.Sublist.filter _ (List.range_sublist.mpr h))

theorem busdayCount_self (d : Int) : busdayCount d d = 0 := by
  simp [busdayCount, weekdayCountFrom]

theorem busdayCount_nonpos_of_le {s e : Int} (h : e ≤ s) : busdayCount s e ≤ 0 := by
  unfold busdayCount
  by_cases h2 : s ≤ e
  · have he : e = s := le_antisymm h h2
    subst he
    simp [weekdayCountFrom]
  · rw [if_neg h2]
    simp

theorem businessDaysBetween_eq_max (s e : Int) :
    businessDaysBetween (some s) (some e) = max 0 (busdayCount (dateOf s) (dateOf e)) := by
  show (if dateOf s = dateOf e then 0 else max 0 (busdayCount (dateOf s) (dateOf e))) = _
  by_cases h : dateOf s = dateOf e
  · rw [if_pos h, h, busdayCount_self]
    simp
  · rw [if_neg h]

theorem dateOf_mono {a b : Int} (h : a ≤ b) : dateOf a ≤ dateOf b := by
  unfold dateOf secondsPerDay
  rw [Int.fdiv_eq_ediv _ (by omega), Int.fdiv_eq_ediv _ (by omega)]
  exact Int.ediv_le_ediv (by omega) h

/-- C6: the business-day duration is 0 on equal dates, never negative, and
monotone in the end timestamp with the start held fixed. -/
theorem c6_business_days_properties :
    (∀ s e : Int, dateOf s = dateOf e → businessDaysBetween (some s) (some e) = 0) ∧
    (∀ a b : Option Int, 0 ≤ businessDaysBetween a b) ∧
    (∀ s e e' : Int, e ≤ e' →
      businessDaysBetween (some s) (some e) ≤ businessDaysBetween (some s) (some e')) := by
  refine ⟨?_, ?_, ?_⟩
  · intro s e h
    simp [businessDaysBetween, h]
  · intro a b
    match a, b with
    | none, _ => simp [businessDaysBetween]
    | some _, none => simp [businessDaysBetween]
    | some s, some e =>
      rw [businessDaysBetween_eq_max]
      exact le_max_left 0 _
  · intro s e e' h
    rw [businessDaysBetween_eq_max, businessDaysBetween_eq_max]
    have hd : dateOf e ≤ dateOf e' := dateOf_mono h
    by_cases hs : dateOf s ≤ dateOf e
    · have hs' : dateOf s ≤ dateOf e' := le_trans hs hd
      refine max_le_max le_rfl ?_
      unfold busdayCount
      rw [if_pos hs, if_pos hs']
      exact_mod_cast weekdayCountFrom_mono _ (Int.toNat_le_toNat (by omega))
    · have h0 : busdayCount (dateOf s) (dateOf e) ≤ 0 :=
        busdayCount_nonpos_of_le (by omega)
      rw [max_eq_left h0]
      exact le_max_left 0 _

/-- Witness for C6 at concrete timestamps (day 4, a Monday, through day 6). -/
theorem c6_business_days_properties_witness :
    businessDaysBetween (some 86400) (some 86400) = 0 ∧
    (0 : Int) ≤ businessDaysBetween (some 0) (some (7 * 86400)) ∧
    businessDaysBetween (some (4 * 86400)) (some (5 * 86400)) ≤
      businessDaysBetween (some (4 * 86400)) (some (6 * 86400)) :=
  ⟨c6_business_days_properties.1 86400 86400 rfl,
   c6_business_days_properties.2.1 (some 0) (some (7 * 86400)),
   c6_business_days_properties.2.2 (4 * 86400) (5 * 86400) (6 * 86400) (by decide)⟩

/-- Rows of spec Scenario D: 7 records under dimension value "A", 3 under "B". -/
def scenarioD : List Record :=
  List.replicate 7 emptyRec ++ List.replicate 3 { emptyRec with UF := "B" }

/-- C7: the dimensional breakdown sorts groups descending by row count and
truncates to the top-N bound; on a column with two values holding 7 and 3
records and top-N = 1, the result is exactly the one row of the 7-record
group. -/
theorem c7_dimension_top_n :
    (∀ dim rows top_n, (analyze_by_dimension dim rows top_n).length ≤ top_n) ∧
    (∀ dim rows top_n,
      (analyze_by_dimension dim rows top_n).Pairwise
        (fun a b => b.Total_Chamados ≤ a.Total_Chamados)) ∧
    analyze_by_dimension (fun r => r.UF) scenarioD 1 =
      [{ key := "A", Total_Chamados := 7, NP_Inicio := 0, NP_Conclusao := 0,
         pct_SLA_Inicio := 0, pct_SLA_Conclusao := 0 }] := by
  refine ⟨?_, ?_, ?_⟩
  · intro dim rows top_n
    simp only [analyze_by_dimension, List.length_map, List.length_take]
    omega
  · intro dim rows top_n
    unfold analyze_by_dimension
    rw [List.pairwise_map]
    have hs : List.Pairwise byCountDesc
        (List.insertionSort byCountDesc ((groupKeys dim rows).map (dimRowFor dim rows))) :=
      List.sorted_insertionSort byCountDesc _
    exact hs.sublist (List.take_sublist _ _)
  · unfold analyze_by_dimension
    have ht : (List.insertionSort byCountDesc
        ((groupKeys (fun r => r.UF) scenarioD).map
          (dimRowFor (fun r => r.UF) scenarioD))).take 1 =
        [{ key := "A", Total_Chamados := 7, NP_Inicio := 0, NP_Conclusao := 0,
           pct_SLA_Inicio := 0, pct_SLA_Conclusao := 0 }] := by decide
    rw [ht]
    simp [addPct]

/-- A record whose forecast-completion time lies two days after the reference
instant 0. -/
def recFutureForecast : Record := { emptyRec with Data_Previsao_Conclusao := some (2 * 86400) }

/-- A record whose start-SLA verdict is decided by a late first-forwarding time
while the arrival itself precedes the forecast-arrival. -/
def recLateForwarding : Record :=
  { emptyRec with
    Data_Previsao_Chegada := some (10 * 86400)
    Data_do_Primeiro_Encaminhamento := some (11 * 86400)
    Data_Chegada := some (5 * 86400) }

/-- An open record without forecast whose creation time lies after the
reference instant 0. -/
def recFutureCreation : Record := { emptyRec with Data_Criacao := some (3 * 86400) }

/-- C2 counterexample: at reference instant 0, the general delay-days field is
-1 on `recFutureForecast`, the start-SLA delay count is -5 on
`recLateForwarding`, and the per-classification delay count is -3 on
`recFutureCreation` — three delay-day counts below 0. -/
theorem c2_negative_delay_counterexample :
    dias_Atrasos recFutureForecast 0 = -1 ∧
    dias_Atraso_Inicio recLateForwarding = some (-5) ∧
    dias_Atraso recFutureCreation 0 = some (-3) := by decide

/-- The first `np.select` condition holds exactly when both completion and
forecast-completion are present with completion strictly later. -/
theorem maskConcluidoAtraso_iff (r : Record) :
    maskConcluidoAtraso r = true ↔
      ∃ c p, r.Data_Conclusao = some c ∧ r.Data_Previsao_Conclusao = some p ∧ p < c := by
  rcases hc : r.Data_Conclusao with _ | c <;>
    rcases hp : r.Data_Previsao_Conclusao with _ | p <;>
      simp [maskConcluidoAtraso, optGt, optLt, hc, hp]

/-- The second `np.select` condition holds exactly when completion is absent
and the forecast-completion is present and already past. -/
theorem maskNaoConcluidoAtraso_iff (r : Record) (hoje : Int) :
    maskNaoConcluidoAtraso r hoje = true ↔
      r.Data_Conclusao = none ∧ ∃ p, r.Data_Previsao_Conclusao = some p ∧ p < hoje := by
  rcases hc : r.Data_Conclusao with _ | c <;>
    rcases hp : r.Data_Previsao_Conclusao with _ | p <;>
      simp [maskNaoConcluidoAtraso, optLt, hc, hp]

/-- The completion-SLA verdict is "FP" exactly when both instants are present
and the completion is strictly later than the forecast. -/
theorem status_Prazo_Conclusao_eq_FP (r : Record) :
    status_Prazo_Conclusao r = "FP" ↔
      ∃ p c, r.Data_Previsao_Conclusao = some p ∧ r.Data_Conclusao = some c ∧ p < c := by
  rcases hp : r.Data_Previsao_Conclusao with _ | p <;>
    rcases hc : r.Data_Conclusao with _ | c
  · simp +decide [status_Prazo_Conclusao, hp]
  · simp +decide [status_Prazo_Conclusao, hp]
  · simp +decide [status_Prazo_Conclusao, hp, hc]
  · by_cases hle : c ≤ p
    · simp +decide [status_Prazo_Conclusao, hp, hc, hle]
    · simp +decide [status_Prazo_Conclusao, hp, hc, hle]
      omega

/-- C2 amended: the completion-SLA delay count is always a non-negative value,
and the per-classification delay count is non-negative whenever the delay
classification is "completed late" or "overdue"; the remaining delay-day
counts are not clamped and can be negative. -/
theorem c2_nonneg_amended (r : Record) (hoje : Int) :
    (∃ k, dias_Atraso_Conclusao r = some k ∧ 0 ≤ k) ∧
    ((status_Atraso r hoje = "Concluído com Atraso" ∨ status_Atraso r hoje = "Atrasado") →
      ∃ k, dias_Atraso r hoje = some k ∧ 0 ≤ k) := by
  constructor
  · by_cases h : status_Prazo_Conclusao r = "FP"
    · obtain ⟨p, c, hp, hc, hpc⟩ := (status_Prazo_Conclusao_eq_FP r).mp h
      unfold dias_Atraso_Conclusao
      rw [if_pos h, hp, hc]
      exact ⟨(c - p).fdiv secondsPerDay, by simp [diasDiff],
        Int.fdiv_nonneg (by omega) (by decide)⟩
    · unfold dias_Atraso_Conclusao
      rw [if_neg h]
      exact ⟨0, rfl, le_refl 0⟩
  · intro hst
    by_cases h1 : maskConcluidoAtraso r = true
    · obtain ⟨c, p, hc, hp, hpc⟩ := (maskConcluidoAtraso_iff r).mp h1
      unfold dias_Atraso
      rw [if_pos h1, hc, hp]
      exact ⟨(c - p).fdiv secondsPerDay, by simp [diasDiff],
        Int.fdiv_nonneg (by omega) (by decide)⟩
    · by_cases h2 : maskNaoConcluidoAtraso r hoje = true
      · obtain ⟨hc, p, hp, hph⟩ := (maskNaoConcluidoAtraso_iff r hoje).mp h2
        unfold dias_Atraso
        rw [if_neg h1, if_pos h2, hp]
        exact ⟨(hoje - p).fdiv secondsPerDay, by simp [diasDiff],
          Int.fdiv_nonneg (by omega) (by decide)⟩
      · exfalso
        unfold status_Atraso at hst
        rw [if_neg h1, if_neg h2] at hst
        split_ifs at hst <;> exact absurd hst (by decide)

/-- A record completed two days past its forecast-completion. -/
def recLateCompletion : Record :=
  { emptyRec with
    Data_Previsao_Conclusao := some 0
    Data_Conclusao := some (2 * 86400) }

/-- Witness for C2 as amended, on a record completed two days past forecast. -/
theorem c2_nonneg_amended_witness :
    (∃ k, dias_Atraso_Conclusao recLateCompletion = some k ∧ 0 ≤ k) ∧
    (∃ k, dias_Atraso recLateCompletion 0 = some k ∧ 0 ≤ k) :=
  ⟨(c2_nonneg_amended recLateCompletion 0).1,
   (c2_nonneg_amended recLateCompletion 0).2 (Or.inl (by decide))⟩

/-- A record with completion present and forecast-completion absent. -/
def recCompletedNoForecast : Record := { emptyRec with Data_Conclusao := some 0 }

/-- C3 counterexample: a record with completion time present and
forecast-completion absent is classified "Status Indefinido" by the `np.select`
default, not "Em Dia". -/
theorem c3_default_counterexample :
    status_Atraso recCompletedNoForecast 0 = "Status Indefinido" ∧
    status_Atraso recCompletedNoForecast 0 ≠ "Em Dia" := by decide

/-- C3 amended: the records reaching the `np.select` default "Status
Indefinido" are exactly those with completion time present and
forecast-completion time absent; every other record receives one of the four
explicit classifications, and no record is left unclassified. -/
theorem c3_classification_amended (r : Record) (hoje : Int) :
    (status_Atraso r hoje = "Status Indefinido" ↔
      r.Data_Conclusao.isSome = true ∧ r.Data_Previsao_Conclusao = none) ∧
    (status_Atraso r hoje = "Concluído com Atraso" ∨ status_Atraso r hoje = "Atrasado" ∨
      status_Atraso r hoje = "Em Aberto (Sem Previsão)" ∨ status_Atraso r hoje = "Em Dia" ∨
      status_Atraso r hoje = "Status Indefinido") := by
  rcases hc : r.Data_Conclusao with _ | c <;> rcases hp : r.Data_Previsao_Conclusao with _ | p
  · simp +decide [status_Atraso, maskConcluidoAtraso, maskNaoConcluidoAtraso,
      maskSemPrevisao, maskEmDia, optGt, optLt, optLe, optGe, hc, hp]
  · by_cases h2 : p < hoje
    · simp +decide [status_Atraso, maskConcluidoAtraso, maskNaoConcluidoAtraso,
        maskSemPrevisao, maskEmDia, optGt, optLt, optLe, optGe, hc, hp, h2]
    · have h2' : hoje ≤ p := Int.not_lt.mp h2
      simp +decide [status_Atraso, maskConcluidoAtraso, maskNaoConcluidoAtraso,
        maskSemPrevisao, maskEmDia, optGt, optLt, optLe, optGe, hc, hp, h2, h2']
  · simp +decide [status_Atraso, maskConcluidoAtraso, maskNaoConcluidoAtraso,
      maskSemPrevisao, maskEmDia, optGt, optLt, optLe, optGe, hc, hp]
  · by_cases h1 : p < c
    · simp +decide [status_Atraso, maskConcluidoAtraso, maskNaoConcluidoAtraso,
        maskSemPrevisao, maskEmDia, optGt, optLt, optLe, optGe, hc, hp, h1]
    · have h1' : c ≤ p := Int.not_lt.mp h1
      simp +decide [status_Atraso, maskConcluidoAtraso, maskNaoConcluidoAtraso,
        maskSemPrevisao, maskEmDia, optGt, optLt, optLe, optGe, hc, hp, h1, h1']

/-- C4 counterexample: with all three milestone timestamps absent, every
elapsed-to-milestone count is 1, not 0 — the 0 default is remapped to 1. -/
theorem c4_absent_milestone_counterexample :
    dias_Chegada emptyRec = some 1 ∧ dias_Conclusao emptyRec = some 1 ∧
    dias_Fechados emptyRec = some 1 := by decide

/-- C4 amended: each elapsed-to-milestone count equals 1 (not 0) when its
milestone timestamp is absent, never equals 0, and for a present milestone
equals the whole-day difference from creation with a computed 0 remapped
to 1. -/
theorem c4_elapsed_milestone_amended (r : Record) :
    (r.Data_Chegada = none → dias_Chegada r = some 1) ∧
    dias_Chegada r ≠ some 0 ∧
    (∀ d : Int, diasDiff r.Data_Chegada r.Data_Criacao = some d → d ≠ 0 →
      dias_Chegada r = some d) ∧
    (diasDiff r.Data_Chegada r.Data_Criacao = some 0 → dias_Chegada r = some 1) ∧
    (r.Data_Conclusao = none → dias_Conclusao r = some 1) ∧
    dias_Conclusao r ≠ some 0 ∧
    (∀ d : Int, diasDiff r.Data_Conclusao r.Data_Criacao = some d → d ≠ 0 →
      dias_Conclusao r = some d) ∧
    (diasDiff r.Data_Conclusao r.Data_Criacao = some 0 → dias_Conclusao r = some 1) ∧
    (r.Data_de_Fechamento = none → dias_Fechados r = some 1) ∧
    dias_Fechados r ≠ some 0 ∧
    (∀ d : Int, diasDiff r.Data_de_Fechamento r.Data_Criacao = some d → d ≠ 0 →
      dias_Fechados r = some d) ∧
    (diasDiff r.Data_de_Fechamento r.Data_Criacao = some 0 → dias_Fechados r = some 1) := by
  refine ⟨?_, ?_, ?_, ?_, ?_, ?_, ?_, ?_, ?_, ?_, ?_, ?_⟩
  · intro h
    simp [dias_Chegada, h]
  · unfold dias_Chegada
    by_cases hv : (if r.Data_Chegada.isSome then diasDiff r.Data_Chegada r.Data_Criacao
        else some 0) = some 0
    · rw [if_pos hv]
      simp
    · rw [if_neg hv]
      exact hv
  · intro d hd hdne
    have hs : r.Data_Chegada.isSome = true := by
      rcases hm : r.Data_Chegada with _ | m
      · rw [hm] at hd
        simp [diasDiff] at hd
      · rfl
    simp [dias_Chegada, hs, hd, hdne]
  · intro hd
    have hs : r.Data_Chegada.isSome = true := by
      rcases hm : r.Data_Chegada with _ | m
      · rw [hm] at hd
        simp [diasDiff] at hd
      · rfl
    simp [dias_Chegada, hs, hd]
  · intro h
    simp [dias_Conclusao, h]
  · unfold dias_Conclusao
    by_cases hv : (if r.Data_Conclusao.isSome then diasDiff r.Data_Conclusao r.Data_Criacao
        else some 0) = some 0
    · rw [if_pos hv]
      simp
    · rw [if_neg hv]
      exact hv
  · intro d hd hdne
    have hs : r.Data_Conclusao.isSome = true := by
      rcases hm : r.Data_Conclusao with _ | m
      · rw [hm] at hd
        simp [diasDiff] at hd
      · rfl
    simp [dias_Conclusao, hs, hd, hdne]
  · intro hd
    have hs : r.Data_Conclusao.isSome = true := by
      rcases hm : r.Data_Conclusao with _ | m
      · rw [hm] at hd
        simp [diasDiff] at hd
      · rfl
    simp [dias_Conclusao, hs, hd]
  · intro h
    simp [dias_Fechados, h]
  · unfold dias_Fechados
    by_cases hv : (if r.Data_de_Fechamento.isSome then
        diasDiff r.Data_de_Fechamento r.Data_Criacao else some 0) = some 0
    · rw [if_pos hv]
      simp
    · rw [if_neg hv]
      exact hv
  · intro d hd hdne
    have hs : r.Data_de_Fechamento.isSome = true := by
      rcases hm : r.Data_de_Fechamento with _ | m
      · rw [hm] at hd
        simp [diasDiff] at hd
      · rfl
    simp [dias_Fechados, hs, hd, hdne]
  · intro hd
    have hs : r.Data_de_Fechamento.isSome = true := by
      rcases hm : r.Data_de_Fechamento with _ | m
      · rw [hm] at hd
        simp [diasDiff] at hd
      · rfl
    simp [dias_Fechados, hs, hd]

/-- A record created on day 0, arrival absent, completed and closed on day 2. -/
def recTwoDayMilestones : Record :=
  { emptyRec with
    Data_Criacao := some 0
    Data_Conclusao := some (2 * 86400)
    Data_de_Fechamento := some (2 * 86400) }

/-- A record created on day 0 whose arrival falls on the same day (one hour
later), completed and closed on day 2. -/
def recSameDayArrival : Record :=
  { emptyRec with
    Data_Criacao := some 0
    Data_Chegada := some 3600
    Data_Conclusao := some (2 * 86400)
    Data_de_Fechamento := some (2 * 86400) }

/-- Witness for C4 as amended: an absent arrival gives 1, a same-day arrival
has its computed 0 remapped to 1, and two-day milestones pass through as 2. -/
theorem c4_elapsed_milestone_amended_witness :
    dias_Chegada recTwoDayMilestones = some 1 ∧
    dias_Chegada recSameDayArrival = some 1 ∧
    dias_Conclusao recSameDayArrival = some 2 ∧
    dias_Fechados recSameDayArrival = some 2 :=
  ⟨(c4_elapsed_milestone_amended recTwoDayMilestones).1 rfl,
   (c4_elapsed_milestone_amended recSameDayArrival).2.2.2.1 (by decide),
   (c4_elapsed_milestone_amended recSameDayArrival).2.2.2.2.2.2.1 2 (by decide) (by decide),
   (c4_elapsed_milestone_amended recSameDayArrival).2.2.2.2.2.2.2.2.2.2.1 2
     (by decide) (by decide)⟩

/-- A record created on day 4 (a Monday) and never completed. -/
def recOpenMonday : Record := { emptyRec with Data_Criacao := some (4 * 86400) }

/-- C1 counterexample: with the raw record and both batch clock reads fixed,
changing only the per-record `pd.Timestamp.now()` read taken inside the
business-day-duration lambda changes the enriched record — the derivation is
not a pure function of the record and one batch reference instant. -/
theorem c1_per_record_clock_counterexample :
    enrichRecord recOpenMonday 0 0 (5 * 86400) ≠ enrichRecord recOpenMonday 0 0 (6 * 86400) ∧
    duracao_Chamado_Dias_Uteis recOpenMonday (5 * 86400) = 1 ∧
    duracao_Chamado_Dias_Uteis recOpenMonday (6 * 86400) = 2 := by decide

/-- C1 amended: every derived field other than the business-day duration
depends only on the record and the batch clock reads, and for a record whose
completion time is present the per-record clock read is irrelevant, so the
whole enrichment is unchanged when only that read differs. -/
theorem c1_purity_amended (r : Record) (hoje1 hoje2 t t' : Int)
    (hc : r.Data_Conclusao.isSome = true) :
    enrichRecord r hoje1 hoje2 t = enrichRecord r hoje1 hoje2 t' := by
  rcases ho : r.Data_Conclusao with _ | c
  · rw [ho] at hc
    simp at hc
  · simp [enrichRecord, duracao_Chamado_Dias_Uteis, ho]

/-- Witness for C1 as amended: a completed record enriched under two different
per-record clock reads. -/
theorem c1_purity_amended_witness :
    enrichRecord recCompletedNoForecast 0 0 86400 =
      enrichRecord recCompletedNoForecast 0 0 (2 * 86400) :=
  c1_purity_amended recCompletedNoForecast 0 0 86400 (2 * 86400) (by decide)

end STD
